import Mathlib

/-!
Shallow embedding of the rule-evaluation core of homectl-server
(src/core/expr.rs), together with the data types it uses
(src/types/action.rs) and models of the external crates it calls into
(evalexpr, jsonptr, serde_json_path).

Modelling notes:
* serde_json::Value is `JValue`; its numbers are modelled as `Int`
  (no claim below depends on floating-point representation).
* evalexpr::Value is `EValue`; `Value::Float` is likewise carried as `Int`.
* HashMap-based containers (DevicesState, HashMapContext, vars_diff) are
  modelled as association lists; Rust leaves their iteration order
  unspecified, the lists fix one order, and no claim depends on it.
* Fallible Rust code returns `Except EvalError`; `unwrap`/indexing panics
  are modelled as the distinct error values `unwrapFailure` /
  `indexOutOfBounds`.
-/

namespace Homectl

/-- serde_json::Value. Numbers are modelled as `Int`. -/
inductive JValue where
  | null : JValue
  | bool (b : Bool) : JValue
  | num (n : Int) : JValue
  | str (s : String) : JValue
  | arr (xs : List JValue) : JValue
  | obj (kvs : List (String × JValue)) : JValue
deriving Repr

/-- evalexpr::Value. `float` is modelled with `Int` (see module comment). -/
inductive EValue where
  | boolean (b : Bool) : EValue
  | float (n : Int) : EValue
  | str (s : String) : EValue
  | empty : EValue
  | tuple (xs : List EValue) : EValue
  | int (n : Int) : EValue
deriving Repr

/-- Error values produced by the core; collapses eyre/evalexpr/jsonptr
error kinds to what the claims need to distinguish. -/
inductive EvalError where
  | expectedString (v : EValue) : EvalError
  | expectedTuple (v : EValue) : EvalError
  | typeMismatch : EvalError
  | conversionError : EvalError
  | unwrapFailure : EvalError
  | indexOutOfBounds : EvalError
  | pointerParse : EvalError
  | assignOutOfBounds : EvalError
deriving Repr

/-! ### Decidable equality for `EValue`

evalexpr's `Value` derives `PartialEq`; the diff step compares values with
`!=`, so the embedding needs decidable equality. `deriving` does not handle
the nested `tuple` constructor, hence the explicit mutual definition. -/

mutual

def decEqE : (a b : EValue) → Decidable (a = b)
  | .boolean x, .boolean y =>
    match decEq x y with
    | isTrue h => isTrue (by rw [h])
    | isFalse h => isFalse (fun hh => h (EValue.boolean.inj hh))
  | .float x, .float y =>
    match decEq x y with
    | isTrue h => isTrue (by rw [h])
    | isFalse h => isFalse (fun hh => h (EValue.float.inj hh))
  | .str x, .str y =>
    match decEq x y with
    | isTrue h => isTrue (by rw [h])
    | isFalse h => isFalse (fun hh => h (EValue.str.inj hh))
  | .empty, .empty => isTrue rfl
  | .int x, .int y =>
    match decEq x y with
    | isTrue h => isTrue (by rw [h])
    | isFalse h => isFalse (fun hh => h (EValue.int.inj hh))
  | .tuple x, .tuple y =>
    match decEqEList x y with
    | isTrue h => isTrue (by rw [h])
    | isFalse h => isFalse (fun hh => h (EValue.tuple.inj hh))
  | .boolean _, .float _ => isFalse (fun h => nomatch h)
  | .boolean _, .str _ => isFalse (fun h => nomatch h)
  | .boolean _, .empty => isFalse (fun h => nomatch h)
  | .boolean _, .tuple _ => isFalse (fun h => nomatch h)
  | .boolean _, .int _ => isFalse (fun h => nomatch h)
  | .float _, .boolean _ => isFalse (fun h => nomatch h)
  | .float _, .str _ => isFalse (fun h => nomatch h)
  | .float _, .empty => isFalse (fun h => nomatch h)
  | .float _, .tuple _ => isFalse (fun h => nomatch h)
  | .float _, .int _ => isFalse (fun h => nomatch h)
  | .str _, .boolean _ => isFalse (fun h => nomatch h)
  | .str _, .float _ => isFalse (fun h => nomatch h)
  | .str _, .empty => isFalse (fun h => nomatch h)
  | .str _, .tuple _ => isFalse (fun h => nomatch h)
  | .str _, .int _ => isFalse (fun h => nomatch h)
  | .empty, .boolean _ => isFalse (fun h => nomatch h)
  | .empty, .float _ => isFalse (fun h => nomatch h)
  | .empty, .str _ => isFalse (fun h => nomatch h)
  | .empty, .tuple _ => isFalse (fun h => nomatch h)
  | .empty, .int _ => isFalse (fun h => nomatch h)
  | .tuple _, .boolean _ => isFalse (fun h => nomatch h)
  | .tuple _, .float _ => isFalse (fun h => nomatch h)
  | .tuple _, .str _ => isFalse (fun h => nomatch h)
  | .tuple _, .empty => isFalse (fun h => nomatch h)
  | .tuple _, .int _ => isFalse (fun h => nomatch h)
  | .int _, .boolean _ => isFalse (fun h => nomatch h)
  | .int _, .float _ => isFalse (fun h => nomatch h)
  | .int _, .str _ => isFalse (fun h => nomatch h)
  | .int _, .empty => isFalse (fun h => nomatch h)
  | .int _, .tuple _ => isFalse (fun h => nomatch h)

def decEqEList : (a b : List EValue) → Decidable (a = b)
  | [], [] => isTrue rfl
  | [], _ :: _ => isFalse (fun h => nomatch h)
  | _ :: _, [] => isFalse (fun h => nomatch h)
  | x :: xs, y :: ys =>
    match decEqE x y, decEqEList xs ys with
    | isTrue h1, isTrue h2 => isTrue (by rw [h1, h2])
    | isFalse h1, _ => isFalse (fun hh => h1 (List.cons.inj hh).1)
    | _, isFalse h2 => isFalse (fun hh => h2 (List.cons.inj hh).2)

end

instance instDecEqEValue : DecidableEq EValue := decEqE

deriving instance DecidableEq for EvalError

/-! ### Conversions between serde values and evalexpr values
(src/core/expr.rs lines 51-86) -/

/-- evalexpr `Value::as_string`: the string payload, or `ExpectedString`. -/
def as_string : EValue → Except EvalError String
  | .str s => .ok s
  | v => .error (.expectedString v)

/-- evalexpr `Value::as_tuple`: the tuple payload, or `ExpectedTuple`.
Note that evalexpr passes a function's single argument as the bare value
and only wraps two or more arguments into a `Value::Tuple`. -/
def as_tuple : EValue → Except EvalError (List EValue)
  | .tuple xs => .ok xs
  | v => .error (.expectedTuple v)

/-- The `collect::<EvalexprResult<Vec<_>>>` over a tuple's members inside
`tuple_value_to_vec_string`: every member must be a string. -/
def collect_strings : List EValue → Except EvalError (List String)
  | [] => .ok []
  | v :: rest => do
    let s ← as_string v
    let ss ← collect_strings rest
    .ok (s :: ss)

/-- src/core/expr.rs `tuple_value_to_vec_string`: require a tuple whose
members are all strings. -/
def tuple_value_to_vec_string (value : EValue) : Except EvalError (List String) := do
  let tuple ← as_tuple value
  collect_strings tuple

/-- src/core/expr.rs `serde_value_to_evalexpr`. The `Number` branch models
`as_f64` (which succeeds on every serde_json number) followed by
`Value::Float`; arrays and objects are errors. -/
def serde_value_to_evalexpr : JValue → Except EvalError EValue
  | .bool b => .ok (.boolean b)
  | .num n => .ok (.float n)
  | .str s => .ok (.str s)
  | .null => .ok .empty
  | .arr _ => .error .conversionError
  | .obj _ => .error .conversionError

mutual

/-- src/core/expr.rs `evalexpr_value_to_serde`. With numbers modelled as
`Int` the float branch (`Number::from_f64`) always succeeds. -/
def evalexpr_value_to_serde : EValue → Except EvalError JValue
  | .boolean b => .ok (.bool b)
  | .float f => .ok (.num f)
  | .str s => .ok (.str s)
  | .empty => .ok .null
  | .tuple a => do
    let xs ← evalexpr_values_to_serde a
    .ok (.arr xs)
  | .int i => .ok (.num i)

/-- The `collect::<Result<Vec<_>>>` over a tuple's members inside
`evalexpr_value_to_serde`. -/
def evalexpr_values_to_serde : List EValue → Except EvalError (List JValue)
  | [] => .ok []
  | v :: rest => do
    let x ← evalexpr_value_to_serde v
    let xs ← evalexpr_values_to_serde rest
    .ok (x :: xs)

end

/-- Rust `str::to_lowercase`, implemented character by character so that
it reduces in the kernel (the claims only exercise ASCII names). -/
def to_lower (s : String) : String :=
  String.mk (s.toList.map Char.toLower)

/-- Rust `str::replace(from, to)` for a single-character pattern,
character by character. -/
def replace_char (s : String) (from_c to_c : Char) : String :=
  String.mk (s.toList.map (fun c => if c = from_c then to_c else c))

/-- src/core/expr.rs `name_to_evalexpr`: lowercase, spaces to underscores. -/
def name_to_evalexpr (device_name : String) : String :=
  replace_char (to_lower device_name) ' ' '_'

/-! ### Recursive flattening (src/core/expr.rs `value_kv_pairs_deep`,
lines 27-49). Array elements use their index as the path segment. -/

mutual

def value_kv_pairs_deep : JValue → String → List (String × JValue)
  | .obj kvs, pfx => kv_pairs_of_obj kvs pfx
  | .arr xs, pfx => kv_pairs_of_arr xs 0 pfx
  | v, pfx => [(pfx, v)]

def kv_pairs_of_obj : List (String × JValue) → String → List (String × JValue)
  | [], _ => []
  | kv :: rest, pfx =>
    value_kv_pairs_deep kv.2 (pfx ++ "." ++ kv.1) ++ kv_pairs_of_obj rest pfx

def kv_pairs_of_arr : List JValue → Nat → String → List (String × JValue)
  | [], _, _ => []
  | v :: rest, i, pfx =>
    value_kv_pairs_deep v (pfx ++ "." ++ toString i) ++ kv_pairs_of_arr rest (i + 1) pfx

end

/-! ### Devices, scenes, groups (src/types; device.rs and the scene/group
registries are collaborators outside this repo's src snapshot, modelled at
their interface per spec sections 3 and 6) -/

/-- A device snapshot: identity plus current structured value
(`device.get_value()`). -/
structure Device where
  id : String
  name : String
  integration_id : String
  value : JValue
deriving Repr

/-- `DevicesState`: device key to device, as an association list standing in
for the `HashMap`. -/
abbrev DevicesState := List (String × Device)

/-- Modelled from the spec: `device.get_device_key()` (device.rs is not in
the src snapshot); a device key combines integration id and device id. -/
structure DeviceKey where
  integration_id : String
  device_id : String
deriving Repr, DecidableEq

def get_device_key (d : Device) : DeviceKey :=
  ⟨d.integration_id, d.id⟩

/-- `FlattenedScenesConfig`: scene id to (device key to state-override
value); the override is already serialized to a serde value
(`serde_json::to_value(state)` in the builder). -/
abbrev FlattenedScenesConfig := List (String × List (String × JValue))

/-! ### The evaluation namespace (evalexpr `HashMapContext`, modelled as an
association list of variables; registered functions are handled separately
by `callBuiltin` below) -/

abbrev Ctx := List (String × EValue)

/-- `Context::get_value`. -/
def getValue (ctx : Ctx) (name : String) : Option EValue :=
  (ctx.find? (fun p => p.1 == name)).map (fun p => p.2)

/-- evalexpr `ValueType`, used by `HashMapContext::set_value`'s type check. -/
inductive EValueType where
  | boolean | float | str | empty | tuple | int
deriving DecidableEq, Repr

def valueTypeOf : EValue → EValueType
  | .boolean _ => .boolean
  | .float _ => .float
  | .str _ => .str
  | .empty => .empty
  | .tuple _ => .tuple
  | .int _ => .int

/-- `HashMapContext::set_value` with type safety checks enabled (the state
during `state_to_eval_context`): overwriting an existing variable with a
value of a different `ValueType` is an error. -/
def set_value_checked (ctx : Ctx) (key : String) (value : EValue) :
    Except EvalError Ctx :=
  match ctx.find? (fun p => p.1 == key) with
  | some existing =>
    if valueTypeOf existing.2 = valueTypeOf value then
      .ok (ctx.map (fun p => if p.1 == key then (p.1, value) else p))
    else
      .error .typeMismatch
  | none => .ok (ctx ++ [(key, value)])

/-- `HashMapContext::set_value` after
`set_type_safety_checks_disabled(true)` (the state while the expression
runs): plain insert-or-overwrite, never fails. -/
def set_value_unchecked (ctx : Ctx) (key : String) (value : EValue) : Ctx :=
  match ctx.find? (fun p => p.1 == key) with
  | some _ => ctx.map (fun p => if p.1 == key then (p.1, value) else p)
  | none => ctx ++ [(key, value)]

/-! ### Snapshot builder (src/core/expr.rs `state_to_eval_context`,
lines 88-157). The `#[cached(size = 1)]` single-slot memoization is not
modelled: the function is pure, so the cache only affects recomputation.
The `dbg` diagnostic function registered at the end lives in the context's
function table, not among its variables, and is omitted here (registering
it never fails and it queues no commands). -/

/-- The device loop body: flattened pairs are converted with
`serde_value_to_evalexpr(..).unwrap()` (a conversion failure would be a
Rust panic, modelled as `unwrapFailure`) and inserted with `set_value`. -/
def add_device_pairs : Ctx → List (String × JValue) → Except EvalError Ctx
  | ctx, [] => .ok ctx
  | ctx, kv :: rest =>
    match serde_value_to_evalexpr kv.2 with
    | .error _ => .error .unwrapFailure
    | .ok v =>
      match set_value_checked ctx kv.1 v with
      | .error e => .error e
      | .ok c2 => add_device_pairs c2 rest

/-- The scene/group loop bodies: conversion failures propagate with `?`. -/
def add_converted_pairs : Ctx → List (String × JValue) → Except EvalError Ctx
  | ctx, [] => .ok ctx
  | ctx, kv :: rest =>
    match serde_value_to_evalexpr kv.2 with
    | .error e => .error e
    | .ok v =>
      match set_value_checked ctx kv.1 v with
      | .error e => .error e
      | .ok c2 => add_converted_pairs c2 rest

/-- The `for device in devices.0.values()` loop (lines 96-109): flatten
each device's value under `devices.<integration_id>.<normalized name>`. -/
def add_devices_loop : Ctx → List (String × Device) → Except EvalError Ctx
  | ctx, [] => .ok ctx
  | ctx, entry :: rest =>
    match add_device_pairs ctx
      (value_kv_pairs_deep entry.2.value
        ("devices." ++ entry.2.integration_id ++ "."
          ++ name_to_evalexpr entry.2.name)) with
    | .error e => .error e
    | .ok c2 => add_devices_loop c2 rest

/-- The inner `for (device_key, state) in scene.devices.0` loop
(lines 114-132): a device key absent from the registry is skipped. -/
def add_scene_devices_loop (devices : DevicesState) (pfx : String) :
    Ctx → List (String × JValue) → Except EvalError Ctx
  | ctx, [] => .ok ctx
  | ctx, ds :: rest =>
    match devices.find? (fun p => p.1 == ds.1) with
    | none => add_scene_devices_loop devices pfx ctx rest
    | some found =>
      match add_converted_pairs ctx
        (value_kv_pairs_deep ds.2
          (pfx ++ "." ++ found.2.integration_id ++ "."
            ++ name_to_evalexpr (to_lower found.2.name))) with
      | .error e => .error e
      | .ok c2 => add_scene_devices_loop devices pfx c2 rest

/-- The outer `for (scene_id, scene) in flattened_scenes.0` loop
(lines 111-133). -/
def add_scenes_loop (devices : DevicesState) :
    Ctx → FlattenedScenesConfig → Except EvalError Ctx
  | ctx, [] => .ok ctx
  | ctx, scene :: rest =>
    match add_scene_devices_loop devices
      ("scenes." ++ name_to_evalexpr scene.1) ctx scene.2 with
    | .error e => .error e
    | .ok c2 => add_scenes_loop devices c2 rest

/-- src/core/expr.rs `state_to_eval_context`. `group_kvs` is the output of
`flattened_groups_to_eval_context_values(flattened_groups, devices)`, a
collaborator outside this repo's src snapshot whose output the spec
(section 4.1) treats as opaque dotted key/value pairs. -/
def state_to_eval_context (devices : DevicesState)
    (flattened_scenes : FlattenedScenesConfig)
    (group_kvs : List (String × JValue)) : Except EvalError Ctx :=
  match add_devices_loop [] devices with
  | .error e => .error e
  | .ok c1 =>
    match add_scenes_loop devices c1 flattened_scenes with
    | .error e => .error e
    | .ok c2 => add_converted_pairs c2 group_kvs


/-! ### Pending commands and built-ins (src/core/expr.rs lines 181-236)

The three built-in closures share one lock-protected queue; evalexpr's
calling convention passes a single argument as the bare value and wraps
two or more arguments into a `Value::Tuple`. -/

/-- The transient `EvalExprAction` queue entries. -/
inductive EvalExprAction where
  | activateScene (scene_id : String) : EvalExprAction
  | custom (integration_id : String) (payload : String) : EvalExprAction
  | forceTriggerRoutine (routine_id : String) : EvalExprAction
deriving Repr, DecidableEq

/-- `Vec` indexing (`arguments[0]` / `arguments[1]`); out of bounds is a
Rust panic, modelled as `indexOutOfBounds`. -/
def vec_index (xs : List EValue) (i : Nat) : Except EvalError EValue :=
  match xs.get? i with
  | some v => .ok v
  | none => .error .indexOutOfBounds

/-- The `activate_scene` closure (lines 190-203): the argument must be a
string; on success the closure evaluates to `Value::Empty` and queues
`ActivateScene(scene_id)`. -/
def activate_scene_builtin (argument : EValue) :
    Except EvalError (EValue × EvalExprAction) := do
  let scene_id ← as_string argument
  .ok (.empty, .activateScene scene_id)

/-- The `custom_action` closure (lines 205-220): the argument is the tuple
of the two call arguments; the payload parts are joined with no separator
(`join("")`). -/
def custom_action_builtin (argument : EValue) :
    Except EvalError (EValue × EvalExprAction) := do
  let arguments ← as_tuple argument
  let first_arg ← vec_index arguments 0
  let integration_id ← as_string first_arg
  let second_arg ← vec_index arguments 1
  let parts ← tuple_value_to_vec_string second_arg
  .ok (.empty, .custom integration_id (String.join parts))

/-- The `trigger_routine` closure (lines 222-236): note that it calls
`as_tuple` on its argument and then indexes `arguments[0]`, exactly like
the two-argument `custom_action`, even though the spec gives it a single
string parameter. -/
def trigger_routine_builtin (argument : EValue) :
    Except EvalError (EValue × EvalExprAction) := do
  let arguments ← as_tuple argument
  let first_arg ← vec_index arguments 0
  let routine_id ← as_string first_arg
  .ok (.empty, .forceTriggerRoutine routine_id)

inductive BuiltinName where
  | activateScene | customAction | triggerRoutine
deriving Repr, DecidableEq

def callBuiltin : BuiltinName → EValue → Except EvalError (EValue × EvalExprAction)
  | .activateScene, a => activate_scene_builtin a
  | .customAction, a => custom_action_builtin a
  | .triggerRoutine, a => trigger_routine_builtin a

/-! ### The expression (evalexpr `Node`)

Parsing and evaluation of the expression language are external to this
core (spec section 6). What `expr.eval_with_context_mut(&mut context)`
can do, as observed by `eval_action_expr`, is: mutate namespace variables
through assignments (with type safety checks disabled, so `set_value`
never fails), invoke the three registered built-ins in some order (each
appending one command to the shared queue, or aborting evaluation with
the closure's error), and finally produce a value or a runtime error.
A `Node` is modelled as such an effect trace. -/

inductive ExprStep where
  | callBuiltin (b : BuiltinName) (arg : EValue) : ExprStep
  | setVar (name : String) (value : EValue) : ExprStep
deriving Repr

structure Node where
  steps : List ExprStep
  result : Except EvalError EValue

/-- Run the trace: thread the context and the shared command queue through
the steps; a failing built-in aborts the whole evaluation. -/
def runSteps : Ctx → List EvalExprAction → List ExprStep →
    Except EvalError (Ctx × List EvalExprAction)
  | ctx, queue, [] => .ok (ctx, queue)
  | ctx, queue, .setVar name value :: rest =>
    runSteps (set_value_unchecked ctx name value) queue rest
  | ctx, queue, .callBuiltin b arg :: rest =>
    match callBuiltin b arg with
    | .error e => .error e
    | .ok done => runSteps ctx (queue ++ [done.2]) rest

/-- `expr.eval_with_context_mut(&mut context)` together with the queue the
built-ins filled: final result value, final context, queued commands. -/
def runNode (node : Node) (ctx : Ctx) :
    Except EvalError (EValue × Ctx × List EvalExprAction) := do
  let outcome ← runSteps ctx [] node.steps
  let r ← node.result
  .ok (r, outcome.1, outcome.2)

/-! ### Actions (src/types/action.rs, plus the `SetDeviceState` variant
used by src/core/expr.rs; the copy of action.rs in the snapshot predates
that variant, and spec section 3 lists it) -/

structure SceneDescriptor where
  scene_id : String
  device_keys : Option (List DeviceKey)
  group_keys : Option (List String)
deriving Repr, DecidableEq

structure CustomActionDescriptor where
  integration_id : String
  payload : String
deriving Repr, DecidableEq

structure ForceTriggerRoutineDescriptor where
  routine_id : String
deriving Repr, DecidableEq

inductive Action where
  | activateScene (d : SceneDescriptor) : Action
  | custom (d : CustomActionDescriptor) : Action
  | forceTriggerRoutine (d : ForceTriggerRoutineDescriptor) : Action
  | setDeviceState (device : Device) : Action
deriving Repr

/-! ### Draining the queue (src/core/expr.rs lines 245-273)

Each queued command is translated into an `Action` and sent on the event
channel inside the same loop iteration, so a translation failure leaves
the previously translated commands already published. -/

/-- Translation of one drained command. For `ActivateScene` the optional
namespace variable `group_keys` is looked up in the post-evaluation
context: absent gives no group keys, present must be a tuple of strings. -/
def translate_command (ctx : Ctx) : EvalExprAction → Except EvalError Action
  | .activateScene scene_id =>
    match getValue ctx "group_keys" with
    | none => .ok (.activateScene ⟨scene_id, none, none⟩)
    | some v => do
      let group_ids ← tuple_value_to_vec_string v
      .ok (.activateScene ⟨scene_id, none, some group_ids⟩)
  | .custom integration_id payload => .ok (.custom ⟨integration_id, payload⟩)
  | .forceTriggerRoutine routine_id =>
    .ok (.forceTriggerRoutine ⟨routine_id⟩)

/-- The drain loop: returns the actions sent on the channel (in order) and
whether the loop completed or aborted with the first translation error. -/
def drainLoop (ctx : Ctx) : List EvalExprAction →
    List Action × Except EvalError Unit
  | [] => ([], .ok ())
  | a :: rest =>
    match translate_command ctx a with
    | .error e => ([], .error e)
    | .ok action =>
      let tail := drainLoop ctx rest
      (action :: tail.1, tail.2)

/-! ### Variable diff (src/core/expr.rs lines 275-296) -/

/-- The `iter_variables().filter_map(..)` collecting every variable of the
final context whose value differs from the original context's value at the
same name (`Some(&value) != original_value`). -/
def vars_diff (ctx original_context : Ctx) : List (String × EValue) :=
  ctx.filter (fun p => getValue original_context p.1 != some p.2)

/-! ### Encoding the diff as a tree (src/core/expr.rs lines 290-296,
via the jsonptr crate)

Each diffed dotted path is turned into a JSON pointer string
(`"/" ++ path` with dots replaced by slashes), parsed
(`Pointer::try_from`, which rejects a `~` escape not followed by `0` or
`1`), and assigned into an initially-`Null` serde value. -/

/-- Unescape one pointer token: `~0` is `~`, `~1` is `/`, a bare `~`
is a parse error. -/
def unescape_token : List Char → Option (List Char)
  | [] => some []
  | '~' :: '0' :: rest => (unescape_token rest).map (fun r => '~' :: r)
  | '~' :: '1' :: rest => (unescape_token rest).map (fun r => '/' :: r)
  | '~' :: _ => none
  | c :: rest => (unescape_token rest).map (fun r => c :: r)

/-- Split a character list at every occurrence of `sep`
(`String::split` semantics: n separators give n+1 pieces). -/
def split_on_char (sep : Char) : List Char → List (List Char)
  | [] => [[]]
  | c :: rest =>
    if c = sep then [] :: split_on_char sep rest
    else
      match split_on_char sep rest with
      | [] => [[c]]
      | t :: ts => (c :: t) :: ts

/-- `jsonptr::Pointer::try_from(format!("/{}", path.replace('.', "/")))`:
replace dots by slashes, split into tokens, unescape each; the leading
slash contributes the (dropped) empty root token. -/
def parse_pointer (path : String) : Except EvalError (List String) :=
  let replaced := path.toList.map (fun c => if c = '.' then '/' else c)
  match (split_on_char '/' replaced).mapM unescape_token with
  | some ts => .ok (ts.map String.mk)
  | none => .error .pointerParse

/-- jsonptr array-index token: digits only, no leading zero (except "0"). -/
def parse_array_index (t : String) : Option Nat :=
  if t.length > 1 && t.front == '0' then none else t.toNat?

/-- jsonptr's expansion of the remaining tokens when assigning below a
missing branch: token `0` or `-` creates an array, anything else an
object. -/
def expand_src : List String → JValue → JValue
  | [], src => src
  | t :: rest, src =>
    if t == "0" || t == "-" then .arr [expand_src rest src]
    else .obj [(t, expand_src rest src)]

/-- `jsonptr::Assign::assign` on a serde value: walk the token list,
descending into existing object members / array elements, replacing
scalars, creating missing branches via `expand_src`; an array token that
is malformed or past the end is an error. -/
def assign_ptr : JValue → List String → JValue → Except EvalError JValue
  | _, [], src => .ok src
  | .obj kvs, t :: rest, src =>
    (match kvs.find? (fun p => p.1 == t) with
     | some existing => do
       let child ← assign_ptr existing.2 rest src
       .ok (.obj (kvs.map (fun p => if p.1 == t then (p.1, child) else p)))
     | none => .ok (.obj (kvs ++ [(t, expand_src rest src)])))
  | .arr xs, t :: rest, src =>
    if t == "-" then .ok (.arr (xs ++ [expand_src rest src]))
    else
      (match parse_array_index t with
       | none => .error .assignOutOfBounds
       | some i =>
         if h : i < xs.length then do
           let child ← assign_ptr (xs.get ⟨i, h⟩) rest src
           .ok (.arr (xs.set i child))
         else if i = xs.length then .ok (.arr (xs ++ [expand_src rest src]))
         else .error .assignOutOfBounds)
  | _, t :: rest, src => .ok (expand_src (t :: rest) src)

/-- The `for (path, value) in vars_diff` loop building `vars_diff_map`
from `serde_json::Value::default()` (`Null`): parse the pointer, convert
the evalexpr value back to serde, assign. -/
def encode_diff (diff : List (String × EValue)) : Except EvalError JValue :=
  diff.foldlM
    (fun acc entry => do
      let ptr ← parse_pointer entry.1
      let new_value ← evalexpr_value_to_serde entry.2
      assign_ptr acc ptr new_value)
    .null

/-! ### Structural pattern queries (src/core/expr.rs lines 298-312, via
the serde_json_path crate)

`JsonPath::parse("$.devices.*.*.scene")` / `"$.devices.*.*.state"` then
`query_path_and_value`: a name selector matches an object member, a
wildcard matches every object member and every array element (the
element's index becomes the path segment). -/

def obj_member (v : JValue) (key : String) : Option JValue :=
  match v with
  | .obj kvs => (kvs.find? (fun p => p.1 == key)).map (fun p => p.2)
  | _ => none

def children_with_segments : JValue → List (String × JValue)
  | .obj kvs => kvs
  | .arr xs => (xs.enum).map (fun p => (toString p.1, p.2))
  | _ => []

/-- `query_path_and_value` for the pattern `$.devices.*.*.<leaf>`:
every (normalized path, leaf value) match. -/
def query_devices_pattern (leaf : String) (tree : JValue) :
    List (List String × JValue) :=
  match obj_member tree "devices" with
  | none => []
  | some devices_node =>
    (children_with_segments devices_node).flatMap (fun c1 =>
      (children_with_segments c1.2).flatMap (fun c2 =>
        match obj_member c2.2 leaf with
        | some leaf_value => [(["devices", c1.1, c2.1, leaf], leaf_value)]
        | none => []))

/-! ### Translating diff matches to actions
(src/core/expr.rs lines 301-339) -/

/-- `find_device_by_path`: read integration id and normalized name from
path segments 1 and 2 (`unwrap`: the queried paths always have four
segments) and find the first matching device. -/
def find_device_by_path (devices : DevicesState) (path : List String) :
    Option Device :=
  match path.get? 1, path.get? 2 with
  | some integration_id, some name =>
    ((devices.map (fun p => p.2)).find?
      (fun device => device.integration_id == integration_id
        && name_to_evalexpr device.name == name))
  | _, _ => none

/-- `scene_id.as_str()`: the string payload of a serde value, if any. -/
def j_as_str : JValue → Option String
  | .str s => some s
  | _ => none

/-- One iteration of the `scenes_diff` loop: skip silently when the device
does not resolve or the leaf value is not a string; otherwise an
`ActivateScene` with exactly the resolved device key and no group keys. -/
def translate_scene_entry (devices : DevicesState)
    (entry : List String × JValue) : Option Action :=
  match find_device_by_path devices entry.1 with
  | none => none
  | some device =>
    match j_as_str entry.2 with
    | some scene_id =>
      some (.activateScene ⟨scene_id, some [get_device_key device], none⟩)
    | none => none

/-- One iteration of the `state_diff` loop: skip silently when the device
does not resolve or `device.set_value(state)` (the registry's validating
apply, a collaborator modelled as `apply_fn`) rejects the new state. -/
def translate_state_entry (apply_fn : Device → JValue → Option Device)
    (devices : DevicesState) (entry : List String × JValue) : Option Action :=
  match find_device_by_path devices entry.1 with
  | none => none
  | some device =>
    match apply_fn device entry.2 with
    | some updated => some (.setDeviceState updated)
    | none => none

/-! ### The whole evaluation call (src/core/expr.rs `eval_action_expr`,
lines 169-342)

The returned pair is (actions sent on the event channel, in order;
the call's `Result`). `get_flattened_scenes` / `get_flattened_groups`
resolution (step 1) happens in collaborators outside this core, so the
flattened configurations are taken as inputs. -/

def eval_action_expr (node : Node) (devices : DevicesState)
    (flattened_scenes : FlattenedScenesConfig)
    (group_kvs : List (String × JValue))
    (apply_fn : Device → JValue → Option Device) :
    List Action × Except EvalError Unit :=
  match state_to_eval_context devices flattened_scenes group_kvs with
  | .error e => ([], .error e)
  | .ok context =>
    let original_context := context
    match runNode node context with
    | .error e => ([], .error e)
    | .ok outcome =>
      let result := outcome.1
      let context := outcome.2.1
      let queue := outcome.2.2
      if result = .boolean false then ([], .ok ())
      else
        let drained := drainLoop context queue
        match drained.2 with
        | .error e => (drained.1, .error e)
        | .ok _ =>
          let diff := vars_diff context original_context
          match encode_diff diff with
          | .error e => (drained.1, .error e)
          | .ok vars_diff_map =>
            let scenes_diff := query_devices_pattern "scene" vars_diff_map
            let state_diff := query_devices_pattern "state" vars_diff_map
            let scene_actions := scenes_diff.filterMap (translate_scene_entry devices)
            let state_actions := state_diff.filterMap (translate_state_entry apply_fn devices)
            (drained.1 ++ scene_actions ++ state_actions, .ok ())

/-! ### Predicates and concrete inputs used by the claim checks below -/

/-- A namespace scalar in the sense of spec section 3: a boolean, number,
string or null — anything except a tuple (`EValue` has no nested
object/array constructors at all). -/
def is_scalar : EValue → Bool
  | .tuple _ => false
  | _ => true

/-- A serde value that is neither an object nor an array, i.e. one the
leaf converter accepts. -/
def is_json_leaf : JValue → Bool
  | .obj _ => false
  | .arr _ => false
  | _ => true

/-- A sample device: "Lamp 1" on integration "hue" with a nested state. -/
def ex_device : Device :=
  ⟨"1", "Lamp 1", "hue", .obj [("state", .obj [("on", .bool false)])]⟩

def ex_devices : DevicesState := [("key1", ex_device)]

/-- A device write validator that rejects every update. -/
def reject_apply : Device → JValue → Option Device := fun _ _ => none

/-- A device write validator that replaces the device's value. -/
def replace_apply : Device → JValue → Option Device :=
  fun d v => some { d with value := v }

/-- Trace of an expression that calls a built-in but results in `false`. -/
def false_result_node : Node :=
  ⟨[.callBuiltin .activateScene (.str "x")], .ok (.boolean false)⟩

/-- Trace of `custom_action("ikea", ("a","b","c"));
activate_scene("x"); group_keys = 5; true`: the second queued command's
translation fails because `group_keys` is not a tuple of strings. -/
def partial_dispatch_node : Node :=
  ⟨[.callBuiltin .customAction
      (.tuple [.str "ikea", .tuple [.str "a", .str "b", .str "c"]]),
    .callBuiltin .activateScene (.str "x"),
    .setVar "group_keys" (.int 5)],
   .ok (.boolean true)⟩

/-- Trace of an expression that fails inside a built-in call
(`trigger_routine("x")` with evalexpr's bare single-argument convention). -/
def failing_builtin_node : Node :=
  ⟨[.callBuiltin .triggerRoutine (.str "x")], .ok (.boolean true)⟩

/-- Trace of `devices.hue.lamp_1.scene = "evening"; true`. -/
def scene_assign_node : Node :=
  ⟨[.setVar "devices.hue.lamp_1.scene" (.str "evening")], .ok (.boolean true)⟩

/-- Trace of `devices.hue.lamp_1.state.on = true; true`. -/
def state_assign_node : Node :=
  ⟨[.setVar "devices.hue.lamp_1.state.on" (.boolean true)], .ok (.boolean true)⟩

/-! ### Helper lemmas -/

theorem except_bind_ok {α β : Type} (x : α) (f : α → Except EvalError β) :
    (Except.ok x >>= f) = f x := rfl

theorem collect_strings_map_str (parts : List String) :
    collect_strings (parts.map EValue.str) = .ok parts := by
  induction parts with
  | nil => rfl
  | cons p rest ih =>
    simp only [List.map_cons, collect_strings, as_string, except_bind_ok, ih]

theorem tuple_value_to_vec_string_strs (ks : List String) :
    tuple_value_to_vec_string (.tuple (ks.map EValue.str)) = .ok ks := by
  simp only [tuple_value_to_vec_string, as_tuple, except_bind_ok,
    collect_strings_map_str]

/-! ### C5 -/

/-- C5: the claim says a call `trigger_routine(routine_id)` with a single
string argument succeeds, evaluates to null and enqueues
`ForceTriggerRoutine(routine_id)`. evalexpr passes a single argument as
the bare value, and the closure immediately calls `as_tuple` on it
(src/core/expr.rs line 227), so the call fails with `ExpectedTuple`
instead: the code contradicts the spec's (clearly intended) signature. -/
theorem trigger_routine_single_string_is_error :
    trigger_routine_builtin (.str "morning") =
      .error (.expectedTuple (.str "morning")) := rfl

/-! ### C6 -/

/-- C6: `custom_action` with a string integration id and a tuple of string
payload parts evaluates to null and queues a `Custom` command whose
payload is the in-order concatenation of the parts with no separator; in
particular `custom_action("ikea", ("a","b","c"))` queues
`Custom("ikea", "abc")`. -/
theorem custom_action_concatenates_payload :
    (∀ (integration_id : String) (parts : List String),
        custom_action_builtin
          (.tuple [.str integration_id, .tuple (parts.map EValue.str)]) =
          .ok (.empty, .custom integration_id (String.join parts))) ∧
    custom_action_builtin
        (.tuple [.str "ikea", .tuple [.str "a", .str "b", .str "c"]]) =
      .ok (.empty, .custom "ikea" "abc") := by
  constructor
  · intro integration_id parts
    simp only [custom_action_builtin, as_tuple, vec_index, List.get?,
      as_string, except_bind_ok, tuple_value_to_vec_string_strs]
  · rfl

/-! ### C7 -/

/-- C7: translating a drained `ActivateScene` command looks up the
optional namespace variable `group_keys` in the final context: when it is
absent the published action carries neither group keys nor device keys;
when it is a tuple of strings those strings are attached as the action's
group keys and `device_keys` stays unset. -/
theorem drained_activate_scene_group_keys :
    (∀ (ctx : Ctx) (scene_id : String),
        getValue ctx "group_keys" = none →
        translate_command ctx (.activateScene scene_id) =
          .ok (.activateScene ⟨scene_id, none, none⟩)) ∧
    (∀ (ctx : Ctx) (scene_id : String) (ks : List String),
        getValue ctx "group_keys" = some (.tuple (ks.map EValue.str)) →
        translate_command ctx (.activateScene scene_id) =
          .ok (.activateScene ⟨scene_id, none, some ks⟩)) := by
  constructor
  · intro ctx scene_id h
    simp only [translate_command, h]
  · intro ctx scene_id ks h
    simp only [translate_command, h, tuple_value_to_vec_string_strs,
      except_bind_ok]

/-- C7 witness: with `group_keys = ("kitchen","hall")` in the namespace,
`activate_scene("relax")` publishes group keys `[kitchen, hall]`; with no
`group_keys` variable it publishes neither key set. -/
theorem drained_activate_scene_group_keys_witness :
    translate_command [("group_keys", .tuple [.str "kitchen", .str "hall"])]
        (.activateScene "relax") =
      .ok (.activateScene ⟨"relax", none, some ["kitchen", "hall"]⟩) ∧
    translate_command [] (.activateScene "relax") =
      .ok (.activateScene ⟨"relax", none, none⟩) :=
  ⟨drained_activate_scene_group_keys.2 _ "relax" ["kitchen", "hall"] rfl,
   drained_activate_scene_group_keys.1 [] "relax" rfl⟩

/-! ### C10 -/

/-- C10: a `devices.*.*.scene` diff entry whose device resolves but whose
new value is not a string is silently ignored: no `ActivateScene` is
produced for it and the loop has no failure path at all (its translation
is a total function into `Option Action`). -/
theorem nonstring_scene_value_ignored (devices : DevicesState)
    (entry : List String × JValue) (device : Device)
    (h1 : find_device_by_path devices entry.1 = some device)
    (h2 : j_as_str entry.2 = none) :
    translate_scene_entry devices entry = none := by
  simp only [translate_scene_entry, h1, h2]

/-- C10 witness: a diffed `scene` value of `3` on a resolvable device
yields no action. -/
theorem nonstring_scene_value_ignored_witness :
    translate_scene_entry ex_devices
      (["devices", "hue", "lamp_1", "scene"], .num 3) = none :=
  nonstring_scene_value_ignored ex_devices _ ex_device (by rfl) rfl

/-! ### C1 -/

/-- C1: when the expression's result is the boolean value `false`, the
call returns success immediately: the queued commands are discarded, the
diff step never runs, and nothing is published on the event channel. -/
theorem false_result_publishes_nothing (node : Node) (devices : DevicesState)
    (flattened_scenes : FlattenedScenesConfig)
    (group_kvs : List (String × JValue))
    (apply_fn : Device → JValue → Option Device) (ctx0 ctxF : Ctx)
    (q : List EvalExprAction)
    (hBuild : state_to_eval_context devices flattened_scenes group_kvs = .ok ctx0)
    (hRun : runNode node ctx0 = .ok (.boolean false, ctxF, q)) :
    eval_action_expr node devices flattened_scenes group_kvs apply_fn =
      ([], .ok ()) := by
  simp [eval_action_expr, hBuild, hRun]

/-- C1 witness: an expression that calls `activate_scene("x")` but
results in `false` publishes zero actions and succeeds. -/
theorem false_result_publishes_nothing_witness :
    eval_action_expr false_result_node ex_devices [] [] reject_apply =
      ([], .ok ()) :=
  false_result_publishes_nothing false_result_node ex_devices [] [] reject_apply
    [("devices.hue.lamp_1.state.on", .boolean false)]
    [("devices.hue.lamp_1.state.on", .boolean false)]
    [.activateScene "x"] rfl rfl

/-! ### C2 -/

/-- C2 counterexample: the claim says a failure while draining queued
commands publishes no action at all. In the code each drained command is
sent before the next one is translated, so with the queue
`[Custom("ikea","abc"), ActivateScene("x")]` and `group_keys = 5` the
`Custom` action is published and only then the `ActivateScene`
translation fails: one action was published and the call still fails. -/
theorem drain_failure_after_dispatch_cex :
    eval_action_expr partial_dispatch_node [] [] [] reject_apply =
      ([.custom ⟨"ikea", "abc"⟩], .error (.expectedTuple (.int 5))) ∧
    ([Action.custom ⟨"ikea", "abc"⟩] : List Action) ≠ [] :=
  ⟨rfl, List.cons_ne_nil _ _⟩

/-- C2 amended: a failure at steps 1-6 — building the namespace, or
evaluating the expression (including a built-in call failing) — returns a
single failure and publishes nothing. (A failure while draining, step 7,
still aborts with a single failure but the commands translated before the
failing one are already published, as the counterexample shows.) -/
theorem pre_drain_failure_publishes_nothing :
    (∀ (node : Node) (devices : DevicesState)
        (fs : FlattenedScenesConfig) (gks : List (String × JValue))
        (apply_fn : Device → JValue → Option Device) (e : EvalError),
        state_to_eval_context devices fs gks = .error e →
        eval_action_expr node devices fs gks apply_fn = ([], .error e)) ∧
    (∀ (node : Node) (devices : DevicesState)
        (fs : FlattenedScenesConfig) (gks : List (String × JValue))
        (apply_fn : Device → JValue → Option Device) (ctx0 : Ctx) (e : EvalError),
        state_to_eval_context devices fs gks = .ok ctx0 →
        runNode node ctx0 = .error e →
        eval_action_expr node devices fs gks apply_fn = ([], .error e)) := by
  constructor
  · intro node devices fs gks apply_fn e h
    simp [eval_action_expr, h]
  · intro node devices fs gks apply_fn ctx0 e h1 h2
    simp [eval_action_expr, h1, h2]

/-- C2 witness for the amended claim: an expression failing inside a
built-in call (`trigger_routine("x")`) publishes nothing and returns the
single failure. -/
theorem pre_drain_failure_publishes_nothing_witness :
    eval_action_expr failing_builtin_node ex_devices [] [] reject_apply =
      ([], .error (.expectedTuple (.str "x"))) :=
  pre_drain_failure_publishes_nothing.2 failing_builtin_node ex_devices [] []
    reject_apply [("devices.hue.lamp_1.state.on", .boolean false)] _ rfl rfl

/-! ### C3 -/

/-- When the drain loop completes without error, the published list has
one action per queued command, and the i-th published action is the
translation of the i-th queued command. -/
theorem drainLoop_ok_characterization :
    ∀ (q : List EvalExprAction) (ctx : Ctx) (sent : List Action),
    drainLoop ctx q = (sent, .ok ()) →
    sent.length = q.length ∧
    ∀ (i : Nat) (h : i < q.length) (h2 : i < sent.length),
      translate_command ctx (q.get ⟨i, h⟩) = .ok (sent.get ⟨i, h2⟩) := by
  intro q
  induction q with
  | nil =>
    intro ctx sent h
    simp only [drainLoop, Prod.mk.injEq] at h
    refine ⟨by simp [← h.1], ?_⟩
    intro i hi
    exact absurd hi (by simp)
  | cons a rest ih =>
    intro ctx sent h
    simp only [drainLoop] at h
    cases hT : translate_command ctx a with
    | error e =>
      rw [hT] at h
      simp at h
    | ok action =>
      rw [hT] at h
      simp only [Prod.mk.injEq] at h
      obtain ⟨hsent, htail⟩ := h
      have hrest : drainLoop ctx rest = ((drainLoop ctx rest).1, .ok ()) := by
        rw [← htail]
      obtain ⟨hlen, hget⟩ := ih ctx (drainLoop ctx rest).1 hrest
      subst hsent
      constructor
      · simp [hlen]
      · intro i hi h2
        cases i with
        | zero => simpa using hT
        | succ n =>
          simp only [List.length_cons, Nat.succ_lt_succ_iff] at hi h2
          simpa using hget n hi h2

/-- C3: on a successful evaluation with a non-false result, the published
sequence is exactly: the translations of the explicitly queued built-in
commands in call order, then the diff-derived scene activations, then the
diff-derived device state updates. -/
theorem success_dispatch_order (node : Node) (devices : DevicesState)
    (fs : FlattenedScenesConfig) (gks : List (String × JValue))
    (apply_fn : Device → JValue → Option Device) (ctx0 ctxF : Ctx)
    (r : EValue) (q : List EvalExprAction) (sentE : List Action) (tree : JValue)
    (hBuild : state_to_eval_context devices fs gks = .ok ctx0)
    (hRun : runNode node ctx0 = .ok (r, ctxF, q))
    (hr : r ≠ .boolean false)
    (hDrain : drainLoop ctxF q = (sentE, .ok ()))
    (hEnc : encode_diff (vars_diff ctxF ctx0) = .ok tree) :
    eval_action_expr node devices fs gks apply_fn =
      (sentE
        ++ (query_devices_pattern "scene" tree).filterMap
            (translate_scene_entry devices)
        ++ (query_devices_pattern "state" tree).filterMap
            (translate_state_entry apply_fn devices),
       .ok ()) ∧
    sentE.length = q.length ∧
    (∀ (i : Nat) (h : i < q.length) (h2 : i < sentE.length),
      translate_command ctxF (q.get ⟨i, h⟩) = .ok (sentE.get ⟨i, h2⟩)) := by
  refine ⟨?_, (drainLoop_ok_characterization q ctxF sentE hDrain).1,
    (drainLoop_ok_characterization q ctxF sentE hDrain).2⟩
  simp [eval_action_expr, hBuild, hRun, hr, hDrain, hEnc]

/-- C3 witness: `devices.hue.lamp_1.scene = "evening"` on the sample
registry publishes exactly one diff-derived `ActivateScene` carrying the
resolved device key (spec example P4). -/
theorem success_dispatch_order_witness :
    eval_action_expr scene_assign_node ex_devices [] [] reject_apply =
      ([.activateScene ⟨"evening", some [⟨"hue", "1"⟩], none⟩], .ok ()) :=
  (success_dispatch_order scene_assign_node ex_devices [] [] reject_apply
    [("devices.hue.lamp_1.state.on", .boolean false)]
    [("devices.hue.lamp_1.state.on", .boolean false),
     ("devices.hue.lamp_1.scene", .str "evening")]
    (.boolean true) [] []
    (.obj [("devices", .obj [("hue", .obj [("lamp_1",
      .obj [("scene", .str "evening")])])])])
    rfl rfl (by decide) rfl rfl).1

/-! ### C4 -/

/-- In a context with no duplicate variable names (the `HashMap` invariant
of `HashMapContext`), `get_value` returning a value is the same as the
pair being an entry of the context. -/
theorem getValue_eq_some_iff (ctx : Ctx) (k : String) (v : EValue)
    (h : (ctx.map Prod.fst).Nodup) :
    getValue ctx k = some v ↔ (k, v) ∈ ctx := by
  induction ctx with
  | nil => simp [getValue]
  | cons a t ih =>
    obtain ⟨a1, a2⟩ := a
    simp only [List.map_cons, List.nodup_cons] at h
    by_cases hk : a1 = k
    · subst hk
      rw [getValue, List.find?_cons_of_pos _ (by simp)]
      simp only [Option.map_some', Option.some.injEq, List.mem_cons,
        Prod.mk.injEq, true_and]
      constructor
      · intro hv
        exact Or.inl hv.symm
      · rintro (h1 | h1)
        · exact h1.symm
        · exact absurd (List.mem_map_of_mem Prod.fst h1) h.1
    · rw [getValue, List.find?_cons_of_neg _ (by simp [hk])]
      rw [show ((List.find? (fun p => p.1 == k) t).map (fun p => p.2) :
        Option EValue) = getValue t k from rfl]
      rw [ih h.2]
      simp only [List.mem_cons, Prod.mk.injEq]
      constructor
      · intro h1
        exact Or.inr h1
      · rintro (⟨h1, _⟩ | h1)
        · exact absurd h1.symm hk
        · exact h1

/-- C4: the variable diff contains exactly the (path, value) pairs of the
final namespace whose value differs — by value equality — from the
original namespace's value at the same path; unchanged paths are excluded
no matter how many unrelated variables exist. -/
theorem vars_diff_mem_iff (ctx original_context : Ctx) (p : String × EValue)
    (h : (ctx.map Prod.fst).Nodup) :
    p ∈ vars_diff ctx original_context ↔
      (getValue ctx p.1 = some p.2 ∧
        getValue original_context p.1 ≠ some p.2) := by
  rw [vars_diff, List.mem_filter, bne_iff_ne,
    getValue_eq_some_iff ctx p.1 p.2 h]

/-- C4 witness (spec example P3): flipping
`devices.hue.lamp1.state.on` from `false` to `true` puts exactly that
pair in the diff, and an unchanged unrelated variable stays out. -/
theorem vars_diff_mem_iff_witness :
    (("devices.hue.lamp1.state.on", EValue.boolean true) ∈
      vars_diff
        [("devices.hue.lamp1.state.on", .boolean true), ("unrelated", .int 1)]
        [("devices.hue.lamp1.state.on", .boolean false), ("unrelated", .int 1)]) ∧
    ¬ (("unrelated", EValue.int 1) ∈
      vars_diff
        [("devices.hue.lamp1.state.on", .boolean true), ("unrelated", .int 1)]
        [("devices.hue.lamp1.state.on", .boolean false), ("unrelated", .int 1)]) :=
  ⟨(vars_diff_mem_iff _ _ _ (by decide)).mpr
      ⟨rfl, by intro hcontra; exact nomatch hcontra⟩,
   fun hmem =>
     ((vars_diff_mem_iff _ _ _ (by decide)).mp hmem).2 rfl⟩

/-! ### C8 -/

/-- C8: benign non-matches never fail the call. A diffed
`devices.*.*.scene` or `devices.*.*.state` entry whose device does not
resolve produces no action; a `state` entry whose validated apply is
rejected produces no action; and whenever the evaluation reaches the diff
translation stage (steps 1-7 and the diff encoding succeeded) the call
returns success, for every registry and every validator. -/
theorem benign_nonmatches_skipped :
    (∀ (devices : DevicesState) (entry : List String × JValue),
        find_device_by_path devices entry.1 = none →
        translate_scene_entry devices entry = none ∧
        ∀ (apply_fn : Device → JValue → Option Device),
          translate_state_entry apply_fn devices entry = none) ∧
    (∀ (apply_fn : Device → JValue → Option Device) (devices : DevicesState)
        (entry : List String × JValue) (device : Device),
        find_device_by_path devices entry.1 = some device →
        apply_fn device entry.2 = none →
        translate_state_entry apply_fn devices entry = none) ∧
    (∀ (node : Node) (devices : DevicesState) (fs : FlattenedScenesConfig)
        (gks : List (String × JValue))
        (apply_fn : Device → JValue → Option Device) (ctx0 ctxF : Ctx)
        (r : EValue) (q : List EvalExprAction) (sentE : List Action)
        (tree : JValue),
        state_to_eval_context devices fs gks = .ok ctx0 →
        runNode node ctx0 = .ok (r, ctxF, q) →
        r ≠ .boolean false →
        drainLoop ctxF q = (sentE, .ok ()) →
        encode_diff (vars_diff ctxF ctx0) = .ok tree →
        (eval_action_expr node devices fs gks apply_fn).2 = .ok ()) := by
  refine ⟨?_, ?_, ?_⟩
  · intro devices entry h
    exact ⟨by simp [translate_scene_entry, h],
      fun apply_fn => by simp [translate_state_entry, h]⟩
  · intro apply_fn devices entry device h1 h2
    simp [translate_state_entry, h1, h2]
  · intro node devices fs gks apply_fn ctx0 ctxF r q sentE tree
      hBuild hRun hr hDrain hEnc
    simp [eval_action_expr, hBuild, hRun, hr, hDrain, hEnc]

/-- C8 witness: an unresolved path yields no action (scene or state); a
rejected state apply yields no action; and an evaluation whose only diff
entry is rejected by the validator still returns success. -/
theorem benign_nonmatches_skipped_witness :
    (translate_scene_entry [] (["devices", "x", "y", "scene"], .str "s") =
        none ∧
      translate_state_entry reject_apply []
        (["devices", "x", "y", "state"], .bool true) = none) ∧
    translate_state_entry reject_apply ex_devices
      (["devices", "hue", "lamp_1", "state"], .bool true) = none ∧
    (eval_action_expr state_assign_node ex_devices [] [] reject_apply).2 =
      .ok () :=
  ⟨⟨(benign_nonmatches_skipped.1 []
      (["devices", "x", "y", "scene"], .str "s") (by rfl)).1,
    (benign_nonmatches_skipped.1 []
      (["devices", "x", "y", "state"], .bool true) (by rfl)).2 reject_apply⟩,
   benign_nonmatches_skipped.2.1 reject_apply ex_devices
     (["devices", "hue", "lamp_1", "state"], .bool true) ex_device
     (by rfl) rfl,
   benign_nonmatches_skipped.2.2 state_assign_node ex_devices [] []
     reject_apply
     [("devices.hue.lamp_1.state.on", .boolean false)]
     [("devices.hue.lamp_1.state.on", .boolean true)]
     (.boolean true) [] []
     (.obj [("devices", .obj [("hue", .obj [("lamp_1",
       .obj [("state", .obj [("on", .bool true)])])])])])
     rfl rfl (by decide) rfl rfl⟩


/-! ### C9 -/

/-- The leaf converter only ever produces scalars (its range has no
tuple). -/
theorem serde_value_to_evalexpr_scalar : (w : JValue) → (v : EValue) →
    serde_value_to_evalexpr w = .ok v → is_scalar v = true
  | .null, _, h => by injection h with h2; rw [← h2]; rfl
  | .bool _, _, h => by injection h with h2; rw [← h2]; rfl
  | .num _, _, h => by injection h with h2; rw [← h2]; rfl
  | .str _, _, h => by injection h with h2; rw [← h2]; rfl
  | .arr _, _, h => by injection h
  | .obj _, _, h => by injection h

/-- A leaf (non-object, non-array) serde value always converts. -/
theorem is_json_leaf_converts (w : JValue) (h : is_json_leaf w = true) :
    (serde_value_to_evalexpr w).isOk = true := by
  cases w <;> simp_all [serde_value_to_evalexpr, is_json_leaf,
    Except.isOk, Except.toBool]

/-- `set_value` preserves the all-scalars invariant when the inserted
value is a scalar. -/
theorem set_value_checked_scalar (c c2 : Ctx) (k : String) (v : EValue)
    (h : set_value_checked c k v = .ok c2)
    (hall : ∀ p ∈ c, is_scalar p.2 = true) (hv : is_scalar v = true) :
    ∀ p ∈ c2, is_scalar p.2 = true := by
  unfold set_value_checked at h
  split at h
  · split at h
    · obtain rfl : (c.map (fun p => if p.1 == k then (p.1, v) else p)) = c2 :=
        by injection h
      intro p hp
      obtain ⟨q, hq, hpq⟩ := List.mem_map.mp hp
      by_cases hqk : (q.1 == k) = true
      · rw [if_pos hqk] at hpq
        rw [← hpq]
        exact hv
      · rw [if_neg (by simp_all)] at hpq
        rw [← hpq]
        exact hall q hq
    · exact absurd h (by simp)
  · obtain rfl : c ++ [(k, v)] = c2 := by injection h
    intro p hp
    rcases List.mem_append.mp hp with h1 | h1
    · exact hall p h1
    · rw [List.mem_singleton.mp h1]
      exact hv

/-- The device loop body preserves the all-scalars invariant (the values
it inserts all come out of the leaf converter). -/
theorem add_device_pairs_scalar :
    ∀ (pairs : List (String × JValue)) (c c2 : Ctx),
    add_device_pairs c pairs = .ok c2 →
    (∀ p ∈ c, is_scalar p.2 = true) → ∀ p ∈ c2, is_scalar p.2 = true := by
  intro pairs
  induction pairs with
  | nil =>
    intro c c2 h hall
    obtain rfl : c = c2 := by injection h
    exact hall
  | cons kv rest ih =>
    intro c c2 h hall
    simp only [add_device_pairs] at h
    split at h
    · exact absurd h (by simp)
    · rename_i v hs
      split at h
      · exact absurd h (by simp)
      · rename_i c3 hsv
        exact ih c3 c2 h
          (set_value_checked_scalar c c3 kv.1 v hsv hall
            (serde_value_to_evalexpr_scalar kv.2 v hs))

/-- Same for the scene/group loop body. -/
theorem add_converted_pairs_scalar :
    ∀ (pairs : List (String × JValue)) (c c2 : Ctx),
    add_converted_pairs c pairs = .ok c2 →
    (∀ p ∈ c, is_scalar p.2 = true) → ∀ p ∈ c2, is_scalar p.2 = true := by
  intro pairs
  induction pairs with
  | nil =>
    intro c c2 h hall
    obtain rfl : c = c2 := by injection h
    exact hall
  | cons kv rest ih =>
    intro c c2 h hall
    simp only [add_converted_pairs] at h
    split at h
    · exact absurd h (by simp)
    · rename_i v hs
      split at h
      · exact absurd h (by simp)
      · rename_i c3 hsv
        exact ih c3 c2 h
          (set_value_checked_scalar c c3 kv.1 v hsv hall
            (serde_value_to_evalexpr_scalar kv.2 v hs))

theorem add_devices_loop_scalar :
    ∀ (entries : List (String × Device)) (c c2 : Ctx),
    add_devices_loop c entries = .ok c2 →
    (∀ p ∈ c, is_scalar p.2 = true) → ∀ p ∈ c2, is_scalar p.2 = true := by
  intro entries
  induction entries with
  | nil =>
    intro c c2 h hall
    obtain rfl : c = c2 := by injection h
    exact hall
  | cons entry rest ih =>
    intro c c2 h hall
    simp only [add_devices_loop] at h
    split at h
    · exact absurd h (by simp)
    · rename_i c3 hs
      exact ih c3 c2 h (add_device_pairs_scalar _ c c3 hs hall)

theorem add_scene_devices_loop_scalar (devices : DevicesState) (pfx : String) :
    ∀ (entries : List (String × JValue)) (c c2 : Ctx),
    add_scene_devices_loop devices pfx c entries = .ok c2 →
    (∀ p ∈ c, is_scalar p.2 = true) → ∀ p ∈ c2, is_scalar p.2 = true := by
  intro entries
  induction entries with
  | nil =>
    intro c c2 h hall
    obtain rfl : c = c2 := by injection h
    exact hall
  | cons ds rest ih =>
    intro c c2 h hall
    simp only [add_scene_devices_loop] at h
    split at h
    · exact ih c c2 h hall
    · rename_i found hf
      split at h
      · exact absurd h (by simp)
      · rename_i c3 hs
        exact ih c3 c2 h (add_converted_pairs_scalar _ c c3 hs hall)

theorem add_scenes_loop_scalar (devices : DevicesState) :
    ∀ (scenes : FlattenedScenesConfig) (c c2 : Ctx),
    add_scenes_loop devices c scenes = .ok c2 →
    (∀ p ∈ c, is_scalar p.2 = true) → ∀ p ∈ c2, is_scalar p.2 = true := by
  intro scenes
  induction scenes with
  | nil =>
    intro c c2 h hall
    obtain rfl : c = c2 := by injection h
    exact hall
  | cons scene rest ih =>
    intro c c2 h hall
    simp only [add_scenes_loop] at h
    split at h
    · exact absurd h (by simp)
    · rename_i c3 hs
      exact ih c3 c2 h
        (add_scene_devices_loop_scalar devices _ scene.2 c c3 hs hall)

mutual

theorem value_kv_pairs_deep_leaf : (v : JValue) → (pfx : String) →
    ∀ p ∈ value_kv_pairs_deep v pfx, is_json_leaf p.2 = true
  | .obj kvs, pfx => kv_pairs_of_obj_leaf kvs pfx
  | .arr xs, pfx => kv_pairs_of_arr_leaf xs 0 pfx
  | .null, pfx => by
    intro p hp
    simp only [value_kv_pairs_deep, List.mem_singleton] at hp
    rw [hp]
    rfl
  | .bool b, pfx => by
    intro p hp
    simp only [value_kv_pairs_deep, List.mem_singleton] at hp
    rw [hp]
    rfl
  | .num n, pfx => by
    intro p hp
    simp only [value_kv_pairs_deep, List.mem_singleton] at hp
    rw [hp]
    rfl
  | .str s, pfx => by
    intro p hp
    simp only [value_kv_pairs_deep, List.mem_singleton] at hp
    rw [hp]
    rfl

theorem kv_pairs_of_obj_leaf : (kvs : List (String × JValue)) → (pfx : String) →
    ∀ p ∈ kv_pairs_of_obj kvs pfx, is_json_leaf p.2 = true
  | [], _ => by
    intro p hp
    simp [kv_pairs_of_obj] at hp
  | kv :: rest, pfx => by
    intro p hp
    simp only [kv_pairs_of_obj, List.mem_append] at hp
    cases hp with
    | inl h => exact value_kv_pairs_deep_leaf kv.2 (pfx ++ "." ++ kv.1) p h
    | inr h => exact kv_pairs_of_obj_leaf rest pfx p h

theorem kv_pairs_of_arr_leaf : (xs : List JValue) → (i : Nat) → (pfx : String) →
    ∀ p ∈ kv_pairs_of_arr xs i pfx, is_json_leaf p.2 = true
  | [], _, _ => by
    intro p hp
    simp [kv_pairs_of_arr] at hp
  | x :: rest, i, pfx => by
    intro p hp
    simp only [kv_pairs_of_arr, List.mem_append] at hp
    cases hp with
    | inl h => exact value_kv_pairs_deep_leaf x (pfx ++ "." ++ toString i) p h
    | inr h => exact kv_pairs_of_arr_leaf rest (i + 1) pfx p h

end

/-- C9: namespace values coming out of the snapshot builder are always
scalars (boolean, number, string, null — never a tuple, and `EValue` has
no object/array at all), and the recursive flattening emits only
non-object, non-array leaves, on which the leaf conversion's error branch
can never fire. -/
theorem builder_namespace_scalar :
    (∀ (v : JValue) (pfx : String) (p : String × JValue),
        p ∈ value_kv_pairs_deep v pfx →
        is_json_leaf p.2 = true ∧ (serde_value_to_evalexpr p.2).isOk = true) ∧
    (∀ (devices : DevicesState) (fs : FlattenedScenesConfig)
        (gks : List (String × JValue)) (ctx : Ctx),
        state_to_eval_context devices fs gks = .ok ctx →
        ∀ p ∈ ctx, is_scalar p.2 = true) := by
  constructor
  · intro v pfx p hp
    have hleaf := value_kv_pairs_deep_leaf v pfx p hp
    exact ⟨hleaf, is_json_leaf_converts p.2 hleaf⟩
  · intro devices fs gks ctx h
    unfold state_to_eval_context at h
    split at h
    · exact absurd h (by simp)
    · rename_i c1 h1
      split at h
      · exact absurd h (by simp)
      · rename_i c2 h2
        exact add_converted_pairs_scalar gks c2 ctx h
          (add_scenes_loop_scalar devices fs c1 c2 h2
            (add_devices_loop_scalar devices [] c1 h1 (by simp)))

/-- C9 witness: the flattening of the sample device's nested value
produces the single leaf pair, which converts; and the namespace built
from the sample registry contains only scalar values. -/
theorem builder_namespace_scalar_witness :
    (is_json_leaf (JValue.bool false) = true ∧
      (serde_value_to_evalexpr (JValue.bool false)).isOk = true) ∧
    (∀ p ∈ ([("devices.hue.lamp_1.state.on", EValue.boolean false)] : Ctx),
      is_scalar p.2 = true) :=
  ⟨builder_namespace_scalar.1 ex_device.value "devices.hue.lamp_1"
      ("devices.hue.lamp_1.state.on", .bool false)
      (by exact List.mem_singleton.mpr rfl),
   builder_namespace_scalar.2 ex_devices [] [] _ rfl⟩

end Homectl
